import Mathlib

/-
Shallow embedding of the metrics aggregation engine of the Alpha dashboard
repository (src/src/FinancialDashboard.js, src/src/App.js, and the unnamed
revisions src/unnamed/part_001 and src/unnamed/part_002).

Conventions of the embedding:
- Numeric cell values are rationals.  A sheet cell is an Option value:
  none models a column that is absent or an empty string (falsy in the
  JavaScript truthiness tests), some v models a non-empty numeric string
  whose parseFloat value is v.
- Timestamps are integers (milliseconds); the wall clock instant read by
  the code via new Date() is passed in explicitly as an argument.
- All definitions are translated from the source files; definitions whose
  name ends in Spec follow the wording of the specification and are used
  to compare the code against it.
-/

namespace Alpha

/-- The closed set of currency codes the dashboard handles
(FinancialDashboard.js line 283, part_001 line 89, part_002 line 305). -/
inductive Currency
  | KES
  | UGX
  | NGN
  | USD
  | CNY
deriving DecidableEq

/-- The string code of a currency, as it appears as a sheet column name. -/
def Currency.code : Currency → String
  | .KES => "KES"
  | .UGX => "UGX"
  | .NGN => "NGN"
  | .USD => "USD"
  | .CNY => "CNY"

/-- The fixed order in which the engine iterates currencies
(const currencies = [KES, UGX, NGN, USD, CNY]). -/
def currencyList : List Currency := [.KES, .UGX, .NGN, .USD, .CNY]

/-- Exchange rate of UGX to KES: 1 / 28.4659 (FinancialDashboard.js line 132). -/
def ugxRate : ℚ := 1 / (284659 / 10000)

/-- Exchange rate of NGN to KES: 1 / 11.59 (FinancialDashboard.js line 133). -/
def ngnRate : ℚ := 1 / (1159 / 100)

/-- Exchange rate of USD to KES: 129.3827 (FinancialDashboard.js line 134). -/
def usdRate : ℚ := 1293827 / 10000

/-- Exchange rate of CNY to KES: 17.80 (FinancialDashboard.js line 135). -/
def cnyRate : ℚ := 1780 / 100

/-- The exchangeRates table of the source: a partial map from currency code
strings to KES multipliers.  KES itself is not a key of the JavaScript
object, which is why lookups of other code paths special-case it. -/
def exchangeRates (c : String) : Option ℚ :=
  if c = "UGX" then some ugxRate
  else if c = "NGN" then some ngnRate
  else if c = "USD" then some usdRate
  else if c = "CNY" then some cnyRate
  else none

/-- Conversion factor to the base currency used by the revenue summation:
KES contributes unconverted (factor 1), the others use the configured rate. -/
def rateFactor : Currency → ℚ
  | .KES => 1
  | .UGX => ugxRate
  | .NGN => ngnRate
  | .USD => usdRate
  | .CNY => cnyRate

/-- convertToKES of part_002 lines 97-101: returns the volume unchanged for
a falsy or KES code, otherwise multiplies by the rate, silently defaulting
to a factor of 1 when the code has no configured rate. -/
def convertToKES (volume : ℚ) (currency : String) (rates : String → Option ℚ) : ℚ :=
  if currency = "" ∨ currency = "KES" then volume
  else volume * ((rates currency).getD 1)

/-- calcGrowth of FinancialDashboard.js lines 84-91 and part_002 lines 87-95. -/
def calcGrowth (current previous : ℚ) : ℚ :=
  if previous > 0 then (current - previous) / previous * 100
  else if current > 0 then 100
  else 0

/-- The growth expression of the month-over-month loop
(FinancialDashboard.js lines 254-262, App.js lines 224-236): the percent
formula when the previous value is positive, otherwise null (none). -/
def growthOpt (current previous : ℚ) : Option ℚ :=
  if previous > 0 then some ((current - previous) / previous * 100) else none

/-- One row of a wide monthly sheet (Monthly_Transaction_Count,
Monthly_Revenue, Monthly_Transaction_Volume): a YearMonth key, an optional
Total column and one optional column per currency. -/
structure SheetRow where
  yearMonth : String
  total : Option ℚ
  kes : Option ℚ
  ugx : Option ℚ
  ngn : Option ℚ
  usd : Option ℚ
  cny : Option ℚ
deriving DecidableEq

/-- The cell of a row for a given currency column. -/
def SheetRow.cell (r : SheetRow) : Currency → Option ℚ
  | .KES => r.kes
  | .UGX => r.ugx
  | .NGN => r.ngn
  | .USD => r.usd
  | .CNY => r.cny

/-- A row carrying only a period key, all cells absent. -/
def SheetRow.blank (ym : String) : SheetRow :=
  ⟨ym, none, none, none, none, none, none⟩

/-- Revenue of one row summed in KES (FinancialDashboard.js lines 206-213
for the current period and 224-230 for each trend point; part_001 lines
206-238 computes the same sum writing each rate as the equal division):
each non-empty currency cell is added once, KES unconverted, the others
multiplied by their configured rate, in the order KES, NGN, UGX, USD, CNY. -/
def totalKesRevenueOfRow (r : SheetRow) : ℚ :=
  (match r.kes with | some v => v | none => 0)
  + (match r.ngn with | some v => v * ngnRate | none => 0)
  + (match r.ugx with | some v => v * ugxRate | none => 0)
  + (match r.usd with | some v => v * usdRate | none => 0)
  + (match r.cny with | some v => v * cnyRate | none => 0)

/-- The contribution the specification assigns to one currency column of a
row: nothing when the cell is empty, otherwise the amount multiplied by its
conversion factor exactly once. -/
def cellContributionSpec (r : SheetRow) (c : Currency) : ℚ :=
  match r.cell c with
  | some v => v * rateFactor c
  | none => 0

/-- Base-currency total as the specification words it: the sum over the
currency columns of the per-column contribution. -/
def baseTotalSpec (r : SheetRow) : ℚ :=
  (currencyList.map (cellContributionSpec r)).sum

/-- Milliseconds in a day, the unit of the setDate arithmetic on Date. -/
def dayMs : ℤ := 86400000

/-- startDateCurrent (FinancialDashboard.js line 161-162): thirty days
before the reference instant. -/
def startDateCurrent (now : ℤ) : ℤ := now - 30 * dayMs

/-- endDateCurrent (FinancialDashboard.js line 160): the reference instant. -/
def endDateCurrent (now : ℤ) : ℤ := now

/-- startDatePrevious (FinancialDashboard.js lines 165-166): sixty days
before the reference instant. -/
def startDatePrevious (now : ℤ) : ℤ := now - 60 * dayMs

/-- endDatePrevious (FinancialDashboard.js line 164): the instant the
current window starts. -/
def endDatePrevious (now : ℤ) : ℤ := now - 30 * dayMs

/-- The date range test of the source, inclusive at both ends
(lastTxDate greater-or-equal startDate and less-or-equal endDate). -/
def inRangeB (t s e : ℤ) : Bool :=
  decide (s ≤ t) && decide (t ≤ e)

/-- One row of the Wallet_Balances sheet as used by FinancialDashboard.js
and part_002: an optional last-transaction timestamp and an optional
numeric balance per currency (none models an absent or empty cell, which
is falsy in the JavaScript truthiness test). -/
structure WalletRow where
  lastTransaction : Option ℤ
  kes : Option ℚ
  ugx : Option ℚ
  ngn : Option ℚ
  usd : Option ℚ
  cny : Option ℚ
deriving DecidableEq

/-- Whether a wallet row passes the window test: a present last-transaction
timestamp inside the inclusive range. -/
def activeInRange (u : WalletRow) (s e : ℤ) : Bool :=
  match u.lastTransaction with
  | some t => inRangeB t s e
  | none => false

/-- The per-currency balance test of getActiveUsersByCurrencyInRange: the
cell is truthy and its parsed value is strictly positive. -/
def balPos : Option ℚ → Bool
  | some v => decide (0 < v)
  | none => false

/-- The per-currency active-user counts returned by
getActiveUsersByCurrencyInRange and by the part_001 breakdown. -/
structure ActiveByCurrency where
  kes : ℕ
  ugx : ℕ
  ngn : ℕ
  usd : ℕ
  cny : ℕ
deriving DecidableEq

/-- The count of a given currency in the breakdown. -/
def ActiveByCurrency.get (a : ActiveByCurrency) : Currency → ℕ
  | .KES => a.kes
  | .UGX => a.ugx
  | .NGN => a.ngn
  | .USD => a.usd
  | .CNY => a.cny

/-- getActiveUsersByCurrencyInRange (FinancialDashboard.js lines 94-122,
part_002 lines 104-132): for each currency, the number of users whose
last transaction lies in the range and who hold a strictly positive
balance in that currency. -/
def getActiveUsersByCurrencyInRange (wallet : List WalletRow) (s e : ℤ) :
    ActiveByCurrency where
  kes := (wallet.filter fun u => activeInRange u s e && balPos u.kes).length
  ugx := (wallet.filter fun u => activeInRange u s e && balPos u.ugx).length
  ngn := (wallet.filter fun u => activeInRange u s e && balPos u.ngn).length
  usd := (wallet.filter fun u => activeInRange u s e && balPos u.usd).length
  cny := (wallet.filter fun u => activeInRange u s e && balPos u.cny).length

/-- distinctActiveUsers (FinancialDashboard.js lines 184-187): users whose
last transaction lies in the current thirty-day window, without any
balance condition.  A missing timestamp yields an invalid date whose
comparisons are false, so such users are not counted. -/
def distinctActiveUsers (wallet : List WalletRow) (now : ℤ) : ℕ :=
  (wallet.filter fun u =>
    activeInRange u (startDateCurrent now) (endDateCurrent now)).length

/-- One point of the monthly trend series (FinancialDashboard.js
lines 235-243). -/
structure TrendPoint where
  month : String
  transactions : ℚ
  revenue : ℚ
  users : ℚ
  volume : ℚ
deriving DecidableEq

/-- monthlyTrendsRaw (FinancialDashboard.js lines 217-244): one point per
row of the transaction-count sheet whose YearMonth is not the Total
pseudo-period, joining the revenue and volume sheets by the period key.
A missing joined row contributes zero, and the users dimension is the
constant zero placeholder of the source. -/
def monthlyTrendsRaw (counts rev vol : List SheetRow) : List TrendPoint :=
  (counts.filter fun item => item.yearMonth != "Total").map fun item =>
    { month := item.yearMonth
      transactions := item.total.getD 0
      revenue := ((rev.find? fun r => r.yearMonth == item.yearMonth).elim 0
        totalKesRevenueOfRow)
      users := 0
      volume := (((vol.find? fun v => v.yearMonth == item.yearMonth).bind
        SheetRow.total).getD 0) }

/-- One entry of a month-over-month growth series: the later period key,
the growth percent (none when the loop emits null) and the later value of
the dimension. -/
structure GrowthPoint where
  month : String
  growth : Option ℚ
  val : ℚ
deriving DecidableEq

/-- One growth series, built from each adjacent pair of trend points for
one dimension (the push loop of FinancialDashboard.js lines 250-279). -/
def growthSeriesBy (proj : TrendPoint → ℚ) : List TrendPoint → List GrowthPoint
  | p :: c :: rest =>
      { month := c.month, growth := growthOpt (proj c) (proj p), val := proj c }
        :: growthSeriesBy proj (c :: rest)
  | _ => []

/-- The three month-over-month growth series. -/
structure GrowthRates where
  user : List GrowthPoint
  revenue : List GrowthPoint
  volume : List GrowthPoint
deriving DecidableEq

/-- growthRatesRaw (FinancialDashboard.js lines 249-279, App.js
lines 212-255): the three series over the users, revenue and volume
dimensions of the trend points. -/
def growthRatesRaw (trends : List TrendPoint) : GrowthRates where
  user := growthSeriesBy (fun t => t.users) trends
  revenue := growthSeriesBy (fun t => t.revenue) trends
  volume := growthSeriesBy (fun t => t.volume) trends

/-- The log-scale clipping of transformForLogScale: values at most zero are
replaced by 0.1. -/
def logClip (q : ℚ) : ℚ := if q ≤ 0 then 1 / 10 else q

/-- transformForLogScale applied to a trend point over the keys
transactions, revenue, users and volume (FinancialDashboard.js line 353). -/
def transformTrendPoint (t : TrendPoint) : TrendPoint :=
  { t with
    transactions := logClip t.transactions
    revenue := logClip t.revenue
    users := logClip t.users
    volume := logClip t.volume }

/-- transformForLogScale applied to a growth point over its single value
key (FinancialDashboard.js lines 354-358); the growth field is untouched. -/
def transformGrowthPoint (g : GrowthPoint) : GrowthPoint :=
  { g with val := logClip g.val }

/-- The cell of an optional row: the row-or-empty-object access pattern
of the source, where the row may be a find miss. -/
def cellOf (r : Option SheetRow) (c : Currency) : Option ℚ :=
  r.bind fun row => row.cell c

/-- One entry of the per-currency month-to-date growth table
(FinancialDashboard.js lines 330-349). -/
structure MtdEntry where
  currency : String
  transactionCountGrowth : ℚ
  currentTransactionCount : ℚ
  previousTransactionCount : ℚ
  transactionVolumeGrowth : ℚ
  currentTransactionVolume : ℚ
  previousTransactionVolume : ℚ
  volumeKES : ℚ
  previousVolumeKES : ℚ
  revenueGrowth : ℚ
  currentRevenue : ℚ
  previousRevenue : ℚ
  userGrowth : ℚ
  currentActiveUsers : ℕ
  previousActiveUsers : ℕ
deriving DecidableEq

/-- The volume-to-KES conversion of the MTD table (FinancialDashboard.js
lines 302-318): KES kept as is, other currencies multiplied by the rate
when one is configured. -/
def mtdVolumeKES (vol : ℚ) (c : Currency) : ℚ :=
  if c = .KES then vol
  else match exchangeRates c.code with
    | some r => vol * r
    | none => vol

/-- mtdGrowthData (FinancialDashboard.js lines 283-350): one entry per
currency of the fixed list, comparing the 2025-02 and 2025-01 rows of the
transaction-count, volume and revenue sheets, with cells of a missing row
or column read as zero, plus the active-user breakdowns. -/
def mtdGrowthData (counts vol rev : List SheetRow)
    (currentActive previousActive : ActiveByCurrency) : List MtdEntry :=
  let janTxRow := counts.find? fun m => m.yearMonth == "2025-01"
  let febTxRow := counts.find? fun m => m.yearMonth == "2025-02"
  let janVolRow := vol.find? fun m => m.yearMonth == "2025-01"
  let febVolRow := vol.find? fun m => m.yearMonth == "2025-02"
  let janRevRow := rev.find? fun m => m.yearMonth == "2025-01"
  let febRevRow := rev.find? fun m => m.yearMonth == "2025-02"
  currencyList.map fun currency =>
    let currentTx := (cellOf febTxRow currency).getD 0
    let prevTx := (cellOf janTxRow currency).getD 0
    let currentVol := (cellOf febVolRow currency).getD 0
    let prevVol := (cellOf janVolRow currency).getD 0
    let currentRev := (cellOf febRevRow currency).getD 0
    let prevRev := (cellOf janRevRow currency).getD 0
    let currActive := currentActive.get currency
    let prevActive := previousActive.get currency
    { currency := currency.code
      transactionCountGrowth := calcGrowth currentTx prevTx
      currentTransactionCount := currentTx
      previousTransactionCount := prevTx
      transactionVolumeGrowth := calcGrowth currentVol prevVol
      currentTransactionVolume := currentVol
      previousTransactionVolume := prevVol
      volumeKES := mtdVolumeKES currentVol currency
      previousVolumeKES := mtdVolumeKES prevVol currency
      revenueGrowth := calcGrowth currentRev prevRev
      currentRevenue := currentRev
      previousRevenue := prevRev
      userGrowth := calcGrowth (currActive : ℚ) (prevActive : ℚ)
      currentActiveUsers := currActive
      previousActiveUsers := prevActive }

/-- One row of the User_Statistics sheet: a metric name and its numeric
value. -/
structure StatRow where
  metric : String
  val : ℚ
deriving DecidableEq

/-- The key metrics block of the snapshot. -/
structure KeyMetrics where
  totalRevenue : ℚ
  totalTransactions : ℚ
  totalUsers : ℚ
  activeUsers : ℕ
deriving DecidableEq

/-- The input snapshot of sheets consumed by the engine of
FinancialDashboard.js. -/
structure Sheets where
  walletBalances : List WalletRow
  monthlyTransactionCount : List SheetRow
  monthlyRevenue : List SheetRow
  monthlyVolume : List SheetRow
  userStats : List StatRow
deriving DecidableEq

/-- The full output of one engine run. -/
structure MetricsSnapshot where
  keyMetrics : KeyMetrics
  monthlyTrends : List TrendPoint
  mtdGrowth : List MtdEntry
  growthRates : GrowthRates
deriving DecidableEq

/-- loadData of FinancialDashboard.js (lines 125-387), reduced to its
computation: the wall-clock instant the code reads through new Date() is
the explicit second argument. -/
def loadData (sheets : Sheets) (now : ℤ) : MetricsSnapshot :=
  let currentActive := getActiveUsersByCurrencyInRange sheets.walletBalances
    (startDateCurrent now) (endDateCurrent now)
  let previousActive := getActiveUsersByCurrencyInRange sheets.walletBalances
    (startDatePrevious now) (endDatePrevious now)
  let distinct := distinctActiveUsers sheets.walletBalances now
  let totalUsers : ℚ :=
    match sheets.userStats.find? fun i => i.metric == "Total Users" with
    | some r => r.val
    | none => (sheets.walletBalances.length : ℚ)
  let totalTransactions : ℚ :=
    match sheets.monthlyTransactionCount.find? fun m =>
        m.yearMonth == "2025-02" with
    | some r => r.total.getD 0
    | none => 0
  let totalRevenue : ℚ :=
    (sheets.monthlyRevenue.find? fun m => m.yearMonth == "2025-02").elim 0
      totalKesRevenueOfRow
  let trendsRaw := monthlyTrendsRaw sheets.monthlyTransactionCount
    sheets.monthlyRevenue sheets.monthlyVolume
  let growthRaw := growthRatesRaw trendsRaw
  { keyMetrics :=
      { totalRevenue := totalRevenue
        totalTransactions := totalTransactions
        totalUsers := totalUsers
        activeUsers := distinct }
    monthlyTrends := trendsRaw.map transformTrendPoint
    mtdGrowth := mtdGrowthData sheets.monthlyTransactionCount
      sheets.monthlyVolume sheets.monthlyRevenue currentActive previousActive
    growthRates :=
      { user := growthRaw.user.map transformGrowthPoint
        revenue := growthRaw.revenue.map transformGrowthPoint
        volume := growthRaw.volume.map transformGrowthPoint } }

/-- One row of the Currency_Summary sheet as read by App.js: a currency
code and the parsed Total_Fees_Original amount. -/
structure CurrencySummaryRow where
  currency : String
  totalFeesOriginal : ℚ
deriving DecidableEq

/-- The total revenue accumulation of App.js lines 144-155: KES added
unconverted, a currency with a configured rate multiplied by it, and any
other currency silently skipped. -/
def totalRevenueKES (rows : List CurrencySummaryRow)
    (rates : String → Option ℚ) : ℚ :=
  rows.foldl (fun acc row =>
    if row.currency = "KES" then acc + row.totalFeesOriginal
    else match rates row.currency with
      | some r => acc + row.totalFeesOriginal * r
      | none => acc) 0

/-- Start of the February 2025 calendar window of part_002 line 171,
new Date(2025, 1, 1), as a UTC millisecond timestamp. -/
def febStart : ℤ := 1738368000000

/-- End of the February 2025 calendar window of part_002 line 172,
new Date(2025, 1, 28, 23, 59, 59), as a UTC millisecond timestamp. -/
def febEnd : ℤ := 1740787199000

/-- One row of the Wallet_Balances sheet as used by the part_001 revision,
whose balance cells are compared as strings: an optional last-transaction
timestamp, an optional parsed Transaction Count, and the raw string cell
per currency (none models an absent or empty cell). -/
structure WalletRowS where
  lastTransaction : Option ℤ
  transactionCount : Option ℤ
  kes : Option String
  ugx : Option String
  ngn : Option String
  usd : Option String
  cny : Option String
deriving DecidableEq

/-- The transaction-count gate of part_001 line 148: the cell is truthy
and parses to a strictly positive integer. -/
def hasPositiveTxCount (u : WalletRowS) : Bool :=
  match u.transactionCount with
  | some n => decide (0 < n)
  | none => false

/-- The string balance test of part_001 lines 155-169: the cell is truthy
and differs from both zero renderings 0.00 CODE and 0.00. -/
def nonZeroBalStr (cell : Option String) (code : String) : Bool :=
  match cell with
  | some s => decide (s ≠ "0.00 " ++ code) && decide (s ≠ "0.00")
  | none => false

/-- The active filter of part_001 lines 129-133: a present last-transaction
timestamp at least thirty days before the reference instant. -/
def activeP1 (u : WalletRowS) (now : ℤ) : Bool :=
  match u.lastTransaction with
  | some t => decide (now - 30 * dayMs ≤ t)
  | none => false

/-- The per-currency active-user breakdown of the part_001 revision
(lines 138-171): over the active users whose transaction count is
positive, KES is incremented unconditionally and then once more when the
KES balance string is non-zero, while every other currency is incremented
only when its balance string is non-zero. -/
def activeUsersByCurrencyP1 (wallet : List WalletRowS) (now : ℤ) :
    ActiveByCurrency :=
  let activeUsers := wallet.filter fun u => activeP1 u now
  { kes := (activeUsers.filter hasPositiveTxCount).length
      + (activeUsers.filter fun u =>
          hasPositiveTxCount u && nonZeroBalStr u.kes "KES").length
    ugx := (activeUsers.filter fun u =>
        hasPositiveTxCount u && nonZeroBalStr u.ugx "UGX").length
    ngn := (activeUsers.filter fun u =>
        hasPositiveTxCount u && nonZeroBalStr u.ngn "NGN").length
    usd := (activeUsers.filter fun u =>
        hasPositiveTxCount u && nonZeroBalStr u.usd "USD").length
    cny := (activeUsers.filter fun u =>
        hasPositiveTxCount u && nonZeroBalStr u.cny "CNY").length }

/-- Rounding of a percentage to two decimal places, used to state the
expected displayed growth of the numerical test case. -/
def round2 (q : ℚ) : ℚ := (round (q * 100) : ℚ) / 100

/-- A transaction-count sheet with two rows carrying the same period key,
used to exhibit duplicate trend points. -/
def dupCounts : List SheetRow := [SheetRow.blank "2025-01", SheetRow.blank "2025-01"]

/-- Claim C1, counterexample: converting an amount in the unconfigured
currency XYZ raises no error anywhere; convertToKES silently applies the
default factor 1 and returns the amount unchanged, and the App.js summary
total silently skips the row, treating it as zero. -/
theorem unknownCurrency_defaultRate_cex :
    convertToKES 5 "XYZ" exchangeRates = 5 ∧
    totalRevenueKES [⟨"XYZ", 7⟩] exchangeRates = 0 := by
  constructor <;> simp [convertToKES, totalRevenueKES, exchangeRates]

/-- Claim C1, amended: for every currency code with no configured exchange
rate (other than the base currency and the empty string), the conversion
helper returns the amount multiplied by the silent default factor 1, and
the currency-summary accumulation contributes nothing for such a row; no
UnknownCurrency error exists in the code. -/
theorem unknownCurrency_silent_behavior (c : String) (v x : ℚ)
    (hc : exchangeRates c = none) (hk : c ≠ "KES") (he : c ≠ "") :
    convertToKES v c exchangeRates = v ∧
    totalRevenueKES [⟨c, x⟩] exchangeRates = 0 := by
  constructor
  · simp [convertToKES, hc, hk, he]
  · simp [totalRevenueKES, hc, hk]

/-- Witness for the amended claim C1 at the concrete currency code XYZ. -/
theorem unknownCurrency_silent_behavior_witness :
    convertToKES 11 "XYZ" exchangeRates = 11 ∧
    totalRevenueKES [⟨"XYZ", 13⟩] exchangeRates = 0 :=
  unknownCurrency_silent_behavior "XYZ" 11 13 (by simp [exchangeRates])
    (by decide) (by decide)

/-- Claim C4: every base-currency revenue total is the sum, over the
currency columns that are non-empty in the row, of the amount times its
conversion factor exactly once; the key-metric total revenue and each
trend point revenue are exactly this row total. -/
theorem baseRevenue_sum_exactly_once :
    (∀ r : SheetRow, totalKesRevenueOfRow r = baseTotalSpec r) ∧
    (∀ (sheets : Sheets) (now : ℤ),
      (loadData sheets now).keyMetrics.totalRevenue =
        (sheets.monthlyRevenue.find? fun m => m.yearMonth == "2025-02").elim 0
          totalKesRevenueOfRow) ∧
    (∀ counts rev vol : List SheetRow,
      (monthlyTrendsRaw counts rev vol).map (fun t => t.revenue) =
        (counts.filter fun i => i.yearMonth != "Total").map fun i =>
          (rev.find? fun r => r.yearMonth == i.yearMonth).elim 0
            totalKesRevenueOfRow) := by
  refine ⟨?_, fun sheets now => rfl, fun counts rev vol => ?_⟩
  · intro r
    rcases r with ⟨ym, tot, k, u, n, us, c⟩
    cases k <;> cases u <;> cases n <;> cases us <;> cases c <;>
      simp [totalKesRevenueOfRow, baseTotalSpec, cellContributionSpec,
        SheetRow.cell, currencyList, rateFactor] <;> ring
  · simp [monthlyTrendsRaw, List.map_map]

/-- Claim C6, counterexample: a transaction-count sheet with two rows for
the same period yields two trend points, while the number of distinct
non-Total period keys is one. -/
theorem trend_duplicate_rows_cex :
    (monthlyTrendsRaw dupCounts [] []).length = 2 ∧
    (((dupCounts.filter fun r => r.yearMonth != "Total").map
        fun r => r.yearMonth).dedup).length = 1 := by
  constructor <;> decide

/-- Claim C6, amended: the monthly trend series has one point per row of
the transaction-count sheet whose period key is not Total; duplicate
period rows therefore produce duplicate trend points, and the length
equals the distinct-period count only when no duplicates exist. -/
theorem trend_length_eq_rows (counts rev vol : List SheetRow) :
    (monthlyTrendsRaw counts rev vol).length =
      (counts.filter fun r => r.yearMonth != "Total").length := by
  simp [monthlyTrendsRaw]

/-- Claim C10: for every input snapshot and reference instant, the MTD
growth table has exactly the five entries KES, UGX, NGN, USD, CNY in this
fixed order, regardless of the sheet contents. -/
theorem mtd_table_fixed_currencies (sheets : Sheets) (now : ℤ) :
    ((loadData sheets now).mtdGrowth.map fun e => e.currency) =
      ["KES", "UGX", "NGN", "USD", "CNY"] ∧
    (loadData sheets now).mtdGrowth.length = 5 := by
  constructor <;> rfl

/-- A transaction-count sheet with the two periods of the growth
counterexample. -/
def cexCounts : List SheetRow := [SheetRow.blank "2025-01", SheetRow.blank "2025-02"]

/-- A revenue sheet where the earlier period is absent (hence zero) and
the later period has KES revenue 5. -/
def cexRev : List SheetRow := [⟨"2025-02", none, some 5, none, none, none, none⟩]

/-- Claim C2, counterexample: with previous revenue 0 and current revenue
5, the month-over-month series emits null (none) for the growth percent,
while the claim requires 100; calcGrowth, used only by the MTD table,
does return 100 on the same pair. -/
theorem growth_from_zero_mom_null_cex :
    ((growthRatesRaw (monthlyTrendsRaw cexCounts cexRev [])).revenue.map
        fun g => g.growth)[0]? = some none ∧
    calcGrowth 5 0 = 100 := by
  constructor
  · simp [cexCounts, cexRev, monthlyTrendsRaw, growthRatesRaw, growthSeriesBy,
      growthOpt, totalKesRevenueOfRow, SheetRow.blank]
  · norm_num [calcGrowth]

/-- Claim C2, amended: calcGrowth, used by the per-currency MTD table,
follows the three-case policy of the claim, but the month-over-month
series computes the percent formula only when the previous value is
positive and emits null (none) whenever it is zero, even when the current
value is positive. -/
theorem growth_policy_cases (current previous : ℚ) :
    (0 < previous →
      calcGrowth current previous = (current - previous) / previous * 100) ∧
    (previous = 0 → 0 < current → calcGrowth current previous = 100) ∧
    (previous = 0 → current = 0 → calcGrowth current previous = 0) ∧
    (previous = 0 → growthOpt current previous = none) := by
  refine ⟨fun h => ?_, fun h hc => ?_, fun h hc => ?_, fun h => ?_⟩
  · simp [calcGrowth, h]
  · subst h
    simp [calcGrowth, hc]
  · subst h
    subst hc
    simp [calcGrowth]
  · subst h
    simp [growthOpt]

/-- Witness for the amended claim C2 on the growth test vectors of the
specification. -/
theorem growth_policy_cases_witness :
    calcGrowth 150 100 = 50 ∧ calcGrowth 50 0 = 100 ∧ calcGrowth 0 0 = 0 ∧
    growthOpt 50 0 = none := by
  refine ⟨?_, ?_, ?_, ?_⟩
  · have h := (growth_policy_cases 150 100).1 (by norm_num)
    rw [h]
    norm_num
  · exact (growth_policy_cases 50 0).2.1 rfl (by norm_num)
  · exact (growth_policy_cases 0 0).2.2.1 rfl rfl
  · exact (growth_policy_cases 50 0).2.2.2 rfl

/-- A wallet with one user whose last transaction is at instant 0. -/
def clockWallet : List WalletRow := [⟨some 0, none, none, none, none, none⟩]

/-- A snapshot consisting of only the clock wallet. -/
def clockSheets : Sheets := ⟨clockWallet, [], [], [], []⟩

/-- Claim C3, counterexample: on the same input snapshot the engine output
differs between two runs whose wall-clock instants differ, because the
active-user window is anchored at the clock reading; hence equality of
sheets, rates, period keys and window length alone does not determine the
output. -/
theorem loadData_clock_dependent_cex :
    (loadData clockSheets (10 * dayMs)).keyMetrics.activeUsers = 1 ∧
    (loadData clockSheets (100 * dayMs)).keyMetrics.activeUsers = 0 ∧
    loadData clockSheets (10 * dayMs) ≠ loadData clockSheets (100 * dayMs) := by
  have h1 : (loadData clockSheets (10 * dayMs)).keyMetrics.activeUsers = 1 := by
    decide
  have h2 : (loadData clockSheets (100 * dayMs)).keyMetrics.activeUsers = 0 := by
    decide
  refine ⟨h1, h2, fun h => ?_⟩
  have := congrArg (fun m => m.keyMetrics.activeUsers) h
  simp only [h1, h2] at this
  exact absurd this (by decide)

/-- Claim C3, amended: the engine is deterministic once the wall-clock
reference instant is included among the fixed configuration: two runs on
equal sheets and equal reference instants produce equal snapshots. -/
theorem loadData_deterministic_given_instant (s1 s2 : Sheets) (n1 n2 : ℤ)
    (hs : s1 = s2) (hn : n1 = n2) :
    loadData s1 n1 = loadData s2 n2 := by
  subst hs
  subst hn
  rfl

/-- Witness for the amended claim C3 at a concrete snapshot and instant. -/
theorem loadData_deterministic_given_instant_witness :
    loadData clockSheets (10 * dayMs) = loadData clockSheets (10 * dayMs) :=
  loadData_deterministic_given_instant clockSheets clockSheets (10 * dayMs)
    (10 * dayMs) rfl rfl

/-- The revenue sheet of the numerical test case: period 2025-01 with KES
revenue 1000000 and period 2025-02 with KES revenue 1200000 and USD
revenue 1000. -/
def scenRevenue : List SheetRow :=
  [⟨"2025-01", none, some 1000000, none, none, none, none⟩,
   ⟨"2025-02", none, some 1200000, none, none, some 1000, none⟩]

/-- The input snapshot of the numerical test case. -/
def scenSheets : Sheets :=
  { walletBalances := []
    monthlyTransactionCount := [SheetRow.blank "2025-01", SheetRow.blank "2025-02"]
    monthlyRevenue := scenRevenue
    monthlyVolume := []
    userStats := [] }

/-- Claim C5: on the test snapshot the engine reports 2025-02 base
revenue 1329382.7 KES and a raw revenue growth of 32.93827 percent versus
2025-01, which rounds to 32.94 at two decimal places. -/
theorem feb2025_revenue_growth_values :
    (((loadData scenSheets 0).monthlyTrends.map fun t => t.revenue)[1]? =
      some (13293827 / 10)) ∧
    (((loadData scenSheets 0).growthRates.revenue.map fun g => g.growth)[0]? =
      some (some (3293827 / 100000))) ∧
    round2 (3293827 / 100000) = 3294 / 100 := by
  refine ⟨?_, ?_, ?_⟩
  · simp only [loadData, scenSheets, scenRevenue, SheetRow.blank,
      monthlyTrendsRaw, List.filter_cons, List.filter_nil, String.reduceBNe,
      String.reduceBEq, reduceIte, ite_true, ite_false, List.map_cons,
      List.map_nil, List.find?_cons, List.find?_nil, Option.elim,
      Option.getD_none, Option.getD_some, Option.none_bind,
      List.getElem?_cons_succ, List.getElem?_cons_zero]
    try simp only [String.reduceBEq, String.reduceBNe]
    norm_num [transformTrendPoint, logClip, totalKesRevenueOfRow, usdRate]
  · simp only [loadData, scenSheets, scenRevenue, SheetRow.blank,
      monthlyTrendsRaw, growthRatesRaw, growthSeriesBy, List.filter_cons,
      List.filter_nil, String.reduceBNe, String.reduceBEq, reduceIte,
      ite_true, ite_false, List.map_cons, List.map_nil, List.find?_cons,
      List.find?_nil, Option.elim, Option.getD_none, Option.getD_some,
      Option.none_bind, List.getElem?_cons_succ, List.getElem?_cons_zero]
    try simp only [String.reduceBEq, String.reduceBNe]
    norm_num [growthOpt, transformGrowthPoint, logClip,
      totalKesRevenueOfRow, usdRate]
  · norm_num [round2, round_eq]

/-- Length of a growth series built from adjacent pairs: one entry fewer
than the trend series. -/
theorem growthSeriesBy_length (proj : TrendPoint → ℚ) :
    ∀ trends : List TrendPoint,
      (growthSeriesBy proj trends).length = trends.length - 1
  | [] => rfl
  | [_] => rfl
  | p :: c :: rest => by
      have ih := growthSeriesBy_length proj (c :: rest)
      simp only [growthSeriesBy, List.length_cons] at ih ⊢
      omega

/-- Entry of a growth series at a position whose two generating trend
points exist: it is built from the points at that position and its
successor, labelled with the later period key. -/
theorem growthSeriesBy_entry (proj : TrendPoint → ℚ) :
    ∀ (trends : List TrendPoint) (j : ℕ) (p c : TrendPoint),
      trends[j]? = some p → trends[j + 1]? = some c →
      (growthSeriesBy proj trends)[j]? =
        some ⟨c.month, growthOpt (proj c) (proj p), proj c⟩
  | [], j, p, c, hp, _ => by simp at hp
  | [_], j, p, c, _, hc => by
      rcases j with _ | k <;> simp at hc
  | a :: b :: rest, 0, p, c, hp, hc => by
      simp only [List.getElem?_cons_zero, List.getElem?_cons_succ,
        Option.some_inj] at hp hc
      subst hp
      subst hc
      simp [growthSeriesBy]
  | a :: b :: rest, j + 1, p, c, hp, hc => by
      rw [List.getElem?_cons_succ] at hp hc
      have ih := growthSeriesBy_entry proj (b :: rest) j p c hp hc
      simpa [growthSeriesBy] using ih

/-- Claim C7: each month-over-month growth series is one entry shorter
than the trend series, and the entry at a position is computed from the
trend points at that position and the next one, labelled with the later
period key. -/
theorem growth_series_alignment (trends : List TrendPoint) :
    ((growthRatesRaw trends).user.length = trends.length - 1 ∧
     (growthRatesRaw trends).revenue.length = trends.length - 1 ∧
     (growthRatesRaw trends).volume.length = trends.length - 1) ∧
    ∀ (j : ℕ) (p c : TrendPoint), trends[j]? = some p →
      trends[j + 1]? = some c →
      (growthRatesRaw trends).user[j]? =
        some ⟨c.month, growthOpt c.users p.users, c.users⟩ ∧
      (growthRatesRaw trends).revenue[j]? =
        some ⟨c.month, growthOpt c.revenue p.revenue, c.revenue⟩ ∧
      (growthRatesRaw trends).volume[j]? =
        some ⟨c.month, growthOpt c.volume p.volume, c.volume⟩ := by
  refine ⟨⟨growthSeriesBy_length _ trends, growthSeriesBy_length _ trends,
    growthSeriesBy_length _ trends⟩, fun j p c hp hc => ?_⟩
  exact ⟨growthSeriesBy_entry _ trends j p c hp hc,
    growthSeriesBy_entry _ trends j p c hp hc,
    growthSeriesBy_entry _ trends j p c hp hc⟩

/-- First trend point of the alignment witness. -/
def trendA : TrendPoint := ⟨"2025-01", 1, 2, 3, 4⟩

/-- Second trend point of the alignment witness. -/
def trendB : TrendPoint := ⟨"2025-02", 5, 6, 7, 8⟩

/-- Witness for claim C7 on a concrete two-point trend series. -/
theorem growth_series_alignment_witness :
    (growthRatesRaw [trendA, trendB]).user[0]? =
      some ⟨trendB.month, growthOpt trendB.users trendA.users, trendB.users⟩ ∧
    (growthRatesRaw [trendA, trendB]).revenue[0]? =
      some ⟨trendB.month, growthOpt trendB.revenue trendA.revenue,
        trendB.revenue⟩ ∧
    (growthRatesRaw [trendA, trendB]).volume[0]? =
      some ⟨trendB.month, growthOpt trendB.volume trendA.volume,
        trendB.volume⟩ :=
  (growth_series_alignment [trendA, trendB]).2 0 trendA trendB rfl rfl

/-- Claim C8, counterexample: the instant exactly thirty days before the
reference instant passes both the current-window test and the
previous-window test, so the two windows are not disjoint. -/
theorem window_boundary_overlap_cex :
    inRangeB (-(30 * dayMs)) (startDateCurrent 0) (endDateCurrent 0) = true ∧
    inRangeB (-(30 * dayMs)) (startDatePrevious 0) (endDatePrevious 0) = true := by
  constructor <;> decide

/-- Claim C8, amended: the current window test accepts exactly the
timestamps of the last thirty days up to the reference instant inclusive,
the previous window test exactly those of the thirty days before that,
and the two tests overlap exactly at the single boundary instant thirty
days before the reference instant. -/
theorem window_membership_eq (now t : ℤ) :
    (inRangeB t (startDateCurrent now) (endDateCurrent now) = true ↔
      now - 30 * dayMs ≤ t ∧ t ≤ now) ∧
    (inRangeB t (startDatePrevious now) (endDatePrevious now) = true ↔
      now - 60 * dayMs ≤ t ∧ t ≤ now - 30 * dayMs) ∧
    ((inRangeB t (startDateCurrent now) (endDateCurrent now) = true ∧
      inRangeB t (startDatePrevious now) (endDatePrevious now) = true) ↔
      t = now - 30 * dayMs) := by
  refine ⟨?_, ?_, ?_⟩
  · simp [inRangeB, startDateCurrent, endDateCurrent, dayMs]
  · simp [inRangeB, startDatePrevious, endDatePrevious, dayMs]
  · simp only [inRangeB, startDateCurrent, endDateCurrent,
      startDatePrevious, endDatePrevious, dayMs, Bool.and_eq_true,
      decide_eq_true_eq]
    omega

/-- Claim C9, amended, part one: in the calendar-window breakdown of
part_002 and FinancialDashboard.js, a user active in the window whose
balance is positive in NGN and zero or blank in every other currency is
counted toward NGN only. -/
theorem calendar_breakdown_ngn_only (u : WalletRow) (s e t : ℤ)
    (ht : u.lastTransaction = some t) (hin : inRangeB t s e = true)
    (hngn : balPos u.ngn = true) (hkes : balPos u.kes = false)
    (hugx : balPos u.ugx = false) (husd : balPos u.usd = false)
    (hcny : balPos u.cny = false) :
    getActiveUsersByCurrencyInRange [u] s e = ⟨0, 0, 1, 0, 0⟩ := by
  have hact : activeInRange u s e = true := by
    simp [activeInRange, ht, hin]
  simp [getActiveUsersByCurrencyInRange, List.filter, hact, hngn, hkes,
    hugx, husd, hcny]

/-- A user last active on 2025-02-26 whose only balance is 10 NGN. -/
def ngnUser : WalletRow := ⟨some 1740600000000, none, none, some 10, none, none⟩

/-- Witness for the amended claim C9 at a concrete user inside the
February 2025 calendar window. -/
theorem calendar_breakdown_ngn_only_witness :
    getActiveUsersByCurrencyInRange [ngnUser] febStart febEnd = ⟨0, 0, 1, 0, 0⟩ :=
  calendar_breakdown_ngn_only ngnUser febStart febEnd 1740600000000
    rfl (by decide)
    (by simp only [ngnUser, balPos]
        rw [decide_eq_true_eq]
        norm_num)
    rfl rfl rfl rfl

/-- A part_001 wallet row: last active on 2025-02-26, five transactions,
and the only balance string is 10.00 in NGN. -/
def ngnUserS : WalletRowS :=
  ⟨some 1740600000000, some 5, none, none, some "10.00", none, none⟩

/-- Claim C9, counterexample: in the part_001 breakdown the same kind of
user, active in the February 2025 window with an NGN-only balance, is
nevertheless counted toward KES as well, because every active user with a
positive transaction count increments the KES bucket unconditionally. -/
theorem ngn_user_counted_kes_cex :
    inRangeB 1740600000000 febStart febEnd = true ∧
    (activeUsersByCurrencyP1 [ngnUserS] 1740600000000).ngn = 1 ∧
    (activeUsersByCurrencyP1 [ngnUserS] 1740600000000).kes = 1 := by
  refine ⟨by decide, by decide, by decide⟩

end Alpha
